import Mathlib

/-!
Shallow embedding of `src/backend/agent.py` (a LiveKit voice-agent worker):
the session-configuration resolution in `entrypoint`, the voice-descriptor
resolver `create_tts_from_voice_descriptor`, the `Assistant.web_search` tool,
and the transcript persistence function `save_turn`.

Modelling conventions:
- Python/JSON values flowing out of `json.loads` are modelled by the `Json`
  inductive below (numbers as `Int`; floats play no role in this code).
- Network I/O is split into the request the code builds (a pure value, `none`
  when the code performs no call) and the pure handler mapping the network
  outcome to the code's result.  The possible outcomes of one `aiohttp` call
  are a status/body response, a timeout, or a transport exception.
- Environment-variable credentials are presence booleans (the code only ever
  checks presence via `os.getenv`).
-/

/-- Parsed JSON values as produced by Python's `json.loads`. -/
inductive Json where
  | null : Json
  | jbool : Bool → Json
  | jnum : Int → Json
  | jstr : String → Json
  | jarr : List Json → Json
  | jobj : List (String × Json) → Json

/-- Python `dict` lookup on a JSON object; with duplicate keys Python's JSON
decoding keeps the last occurrence, hence the reverse search. -/
def jsonLookup (fs : List (String × Json)) (k : String) : Option Json :=
  (fs.reverse.find? (fun p => p.1 = k)).map (fun p => p.2)

/-- Python truthiness of a JSON-decoded value (`if x:`). -/
def Json.truthy : Json → Bool
  | .null => false
  | .jbool b => b
  | .jnum n => n != 0
  | .jstr s => s != ""
  | .jarr xs => !xs.isEmpty
  | .jobj fs => !fs.isEmpty

/-- Python subscript `data[k]` on a JSON value: `none` models the raised
`KeyError`/`TypeError` (caught by the enclosing `except` in the source). -/
def Json.field (j : Json) (k : String) : Option Json :=
  match j with
  | .jobj fs => jsonLookup fs k
  | _ => none

/-- Python subscript `data[i]` for an integer index on a JSON value. -/
def Json.item (j : Json) (i : Nat) : Option Json :=
  match j with
  | .jarr xs => xs.get? i
  | _ => none

/-- Python `s.split(sep, 1)` for a one-character separator, on the character
list of the string: `none` when the separator is absent (Python returns a
one-element list), otherwise the parts before and after its first occurrence. -/
def splitFirstOn (c : Char) : List Char → Option (List Char × List Char)
  | [] => none
  | x :: xs =>
    if x = c then some ([], xs)
    else
      match splitFirstOn c xs with
      | none => none
      | some (a, b) => some (x :: a, b)

/-- Python `s.split(sep)[-1]` for a one-character separator: the suffix after
the last occurrence of `c`, the whole list when `c` is absent. -/
def afterLast (c : Char) (l : List Char) : List Char :=
  (l.reverse.takeWhile (fun x => x != c)).reverse

/-- Python `c in s` membership test. -/
def containsChar (c : Char) (l : List Char) : Bool :=
  l.any (fun x => x = c)

/-- The characters Python's `str.strip()` removes (ASCII whitespace; the code
never feeds it non-ASCII whitespace-bearing text in any claim). -/
def isPyWhitespace (c : Char) : Bool :=
  c = ' ' || c = '\t' || c = '\n' || c = '\r' || c = '\x0b' || c = '\x0c'

/-- Python `text.strip()`. -/
def pyStrip (s : String) : String :=
  ⟨((s.data.dropWhile isPyWhitespace).reverse.dropWhile isPyWhitespace).reverse⟩

/-- Presence of the environment credentials the agent consults. -/
structure Env where
  cartesia_api_key : Bool
  elevenlabs_api_key : Bool
  perplexity_api_key : Bool

/-- Outcome of one `aiohttp` call as seen by the code: a response with a
status and an already-decoded JSON body, a timeout, or a transport
exception raised before any response arrived.  (A 200 response whose body
is not valid JSON makes `response.json()` raise inside the same `try`, which
lands on the same handler branch as a body missing the expected path, so it
is covered by `Json` bodies for which `extractAnswer` fails.) -/
inductive NetResult where
  | response : Nat → Json → NetResult
  | timeout : NetResult
  | transportFailure : NetResult

/- ---------------------------------------------------------------------
`class Assistant(Agent)` — `src/backend/agent.py` lines 47-123.
--------------------------------------------------------------------- -/

/-- Line 50: the base instruction text. -/
def baseInstructions : String :=
  "You are a helpful voice AI assistant for CarPlay. Keep responses concise, clear, and in English for safe driving. Default to English unless the driver explicitly asks for another language."

/-- Line 53: suffix appended when both tool flags are enabled. -/
def toolInstructionsSuffix : String :=
  " When users ask questions requiring current information (news, weather, traffic, events, facts), use the web_search tool."

/-- Line 55: suffix appended otherwise. -/
def knowledgeInstructionsSuffix : String :=
  " Rely on your built-in knowledge to answer questions."

/-- The state an `Assistant` instance carries after `__init__`: the
instruction text handed to `Agent.__init__` and the stored
`self._web_search_enabled` setting (the dispatch-metadata value, so an
arbitrary JSON value tested for truthiness at use sites). -/
structure Assistant where
  instructions : String
  web_search_enabled : Json

/-- `Assistant.__init__` (lines 48-60): picks the instruction text from the
two flags (Python `and` on metadata values, i.e. truthiness of both) and
stores the web-search flag; `tool_calling_enabled` is not stored. -/
def mkAssistant (tool_calling_enabled web_search_enabled : Json) : Assistant :=
  { instructions :=
      if tool_calling_enabled.truthy && web_search_enabled.truthy then
        baseInstructions ++ toolInstructionsSuffix
      else
        baseInstructions ++ knowledgeInstructionsSuffix,
    web_search_enabled := web_search_enabled }

/-- The single Perplexity request `web_search` issues (lines 89-110). -/
structure SearchRequest where
  url : String
  model : String
  systemContent : String
  userContent : String
  temperatureTenths : Nat
  maxTokens : Nat
  timeoutSeconds : Nat

/-- Lines 89-110: the request body/headers/timeout built around the query
(`temperature=0.2` recorded in tenths). -/
def perplexityRequest (query : String) : SearchRequest :=
  { url := "https://api.perplexity.ai/chat/completions",
    model := "llama-3.1-sonar-small-128k-online",
    systemContent := "Provide concise, factual answers suitable for voice interaction while driving. Keep responses under 3 sentences for safety.",
    userContent := query,
    temperatureTenths := 2,
    maxTokens := 200,
    timeoutSeconds := 10 }

/-- `data['choices'][0]['message']['content']` (line 114); `none` models the
exception Python raises when the path is missing, caught at line 121. -/
def extractAnswer (data : Json) : Option Json :=
  (((data.field "choices").bind (fun c => c.item 0)).bind
      (fun c => c.field "message")).bind (fun m => m.field "content")

/-- The network request `Assistant.web_search` issues for a query: `none`
when one of the two short-circuit gates (lines 77-78 and 82-84) returns
before any call, `some` the single POST of lines 89-110 otherwise. -/
def Assistant.webSearchRequest (a : Assistant) (env : Env) (query : String) :
    Option SearchRequest :=
  if !a.web_search_enabled.truthy then none
  else if !env.perplexity_api_key then none
  else some (perplexityRequest query)

/-- The value `Assistant.web_search` returns (lines 76-123), as a function of
the network outcome.  At status 200 the code reads
`data['choices'][0]['message']['content']` and logs `result[:100]`: a string
or list answer survives the slice and is returned as-is; any other shape (or
a missing path) raises and is caught by the `except` at line 121.  Every
other status yields the fixed "having trouble" sentence; a timeout or
transport exception is caught by the same `except` (line 121). -/
def Assistant.webSearchReply (a : Assistant) (env : Env) (_query : String)
    (net : NetResult) : Json :=
  if !a.web_search_enabled.truthy then
    .jstr "Web search is currently disabled in your settings."
  else if !env.perplexity_api_key then
    .jstr "Search unavailable: API key not configured"
  else
    match net with
    | .response 200 body =>
      match extractAnswer body with
      | some (.jstr s) => .jstr s
      | some (.jarr xs) => .jarr xs
      | _ => .jstr "Search is temporarily unavailable."
    | .response _ _ => .jstr "I'm having trouble searching the web right now."
    | .timeout => .jstr "Search is temporarily unavailable."
    | .transportFailure => .jstr "Search is temporarily unavailable."

/- ---------------------------------------------------------------------
`create_tts_from_voice_descriptor` — lines 125-182.
--------------------------------------------------------------------- -/

/-- The value `create_tts_from_voice_descriptor` returns: a directly
instantiated provider TTS object, or the input value unchanged (the LiveKit
Inference fallback). -/
inductive TTSInstance where
  | cartesiaTTS : String → String → TTSInstance
  | elevenlabsTTS : String → String → TTSInstance
  | fallback : Json → TTSInstance

/-- Lines 125-182, parameter by parameter.  A falsy or non-string input is
returned unchanged (line 135-136).  For a `cartesia/`-prefixed string:
`split(":", 1)` (line 143); with both parts present, the model is
`model_part.split("/")[-1]` when `"/" in model_part` else `"sonic-3"`
(line 149), and the TTS is instantiated only when `CARTESIA_API_KEY` is
present (lines 152-157); a missing `:` falls back (lines 158-160).  The
`elevenlabs/` branch (lines 165-180) is identical with default model
`eleven_turbo_v2_5` and `ELEVENLABS_API_KEY`.  Anything else falls back
(line 182). -/
def create_tts_from_voice_descriptor (env : Env) (voice_descriptor : Json) :
    TTSInstance :=
  match voice_descriptor with
  | .jstr s =>
    if s.data.isEmpty then .fallback voice_descriptor
    else if "cartesia/".data.isPrefixOf s.data then
      match splitFirstOn ':' s.data with
      | some (model_part, voice_id) =>
        let model :=
          if containsChar '/' model_part then afterLast '/' model_part
          else "sonic-3".data
        if env.cartesia_api_key then .cartesiaTTS ⟨model⟩ ⟨voice_id⟩
        else .fallback voice_descriptor
      | none => .fallback voice_descriptor
    else if "elevenlabs/".data.isPrefixOf s.data then
      match splitFirstOn ':' s.data with
      | some (model_part, voice_id) =>
        let model :=
          if containsChar '/' model_part then afterLast '/' model_part
          else "eleven_turbo_v2_5".data
        if env.elevenlabs_api_key then .elevenlabsTTS ⟨model⟩ ⟨voice_id⟩
        else .fallback voice_descriptor
      | none => .fallback voice_descriptor
    else .fallback voice_descriptor
  | other => .fallback other

/-- A descriptor string matches the `provider/model:voiceId` shape for a
recognized provider: it carries a `cartesia/` or `elevenlabs/` provider
prefix and a `:` separator.  (Used to state claims about the resolver.) -/
def recognizedShape (s : String) : Bool :=
  ("cartesia/".data.isPrefixOf s.data || "elevenlabs/".data.isPrefixOf s.data)
    && (splitFirstOn ':' s.data).isSome

/-- The credential belonging to the provider named by the descriptor's
prefix (`false` when no recognized provider prefix is present). -/
def credentialFor (env : Env) (s : String) : Bool :=
  if "cartesia/".data.isPrefixOf s.data then env.cartesia_api_key
  else if "elevenlabs/".data.isPrefixOf s.data then env.elevenlabs_api_key
  else false

/- ---------------------------------------------------------------------
`save_turn` — lines 184-216.
--------------------------------------------------------------------- -/

/-- The single POST `save_turn` issues: URL, JSON body, content-type header
and request timeout (lines 195-204). -/
structure TurnPost where
  url : String
  body : Json
  contentType : String
  timeoutSeconds : Nat

/-- The request side of `save_turn` (lines 190-204): `none` when the guard
`if not session_id or not text.strip()` (line 190) skips the save (a missing
or empty session id, or whitespace-only text), otherwise exactly the one
POST of `{"speaker": speaker, "text": text.strip()}` to
`{BACKEND_URL}/v1/sessions/{session_id}/turns`. -/
def save_turn_request (backend_url : String) (session_id : Option String)
    (speaker text : String) : Option TurnPost :=
  match session_id with
  | none => none
  | some sid =>
    if sid = "" then none
    else if pyStrip text = "" then none
    else
      some { url := backend_url ++ "/v1/sessions/" ++ sid ++ "/turns",
             body := .jobj [("speaker", .jstr speaker),
                            ("text", .jstr (pyStrip text))],
             contentType := "application/json",
             timeoutSeconds := 5 }

/-- What `save_turn` does with the outcome of its POST (lines 205-216): every
branch only logs; nothing is re-raised. -/
inductive TurnSaveOutcome where
  | savedDebugLog : TurnSaveOutcome
  | statusErrorLog : Nat → TurnSaveOutcome
  | timeoutErrorLog : TurnSaveOutcome
  | exceptionErrorLog : TurnSaveOutcome

/-- The response side of `save_turn`: HTTP 201 is the success branch
(line 206); any other status is logged with its status code (lines 208-211);
`asyncio.TimeoutError` and any other exception are caught by the two
`except` clauses (lines 212-216).  Total, so the coroutine never raises. -/
def save_turn_handle (net : NetResult) : TurnSaveOutcome :=
  match net with
  | .response 201 _ => .savedDebugLog
  | .response s _ => .statusErrorLog s
  | .timeout => .timeoutErrorLog
  | .transportFailure => .exceptionErrorLog

/- ---------------------------------------------------------------------
`entrypoint` — session configuration (lines 232-250) and backend
construction (lines 254-331).
--------------------------------------------------------------------- -/

/-- The dispatch metadata as `entrypoint` receives it: `ctx.job.metadata`
absent/empty (line 237's falsy test fails), a string `json.loads` rejects
(line 238 raises, caught at line 243), or a successfully parsed JSON value. -/
inductive RawMetadata where
  | missing : RawMetadata
  | unparseable : RawMetadata
  | parsed : Json → RawMetadata

/-- The per-session settings `entrypoint` extracts at lines 240-250. -/
structure SessionConfig where
  session_id : Option Json
  realtime_mode : Json
  voice : Json
  model : Json
  tool_calling_enabled : Json
  web_search_enabled : Json

/-- Line 247: the default Cartesia voice descriptor. -/
def defaultVoiceDescriptor : String :=
  "cartesia/sonic-3:9626c31c-bec5-4cca-baa8-f8ba9e84c8bc"

/-- Line 248: the default LLM identifier. -/
def defaultModelDescriptor : String := "openai/gpt-4.1-mini"

/-- The configuration resolved when no metadata survives parsing: every
field's `metadata.get(...)` default from lines 240-250. -/
def defaultSessionConfig : SessionConfig :=
  { session_id := none,
    realtime_mode := .jbool false,
    voice := .jstr defaultVoiceDescriptor,
    model := .jstr defaultModelDescriptor,
    tool_calling_enabled := .jbool true,
    web_search_enabled := .jbool true }

/-- Lines 232-250 of `entrypoint`.  `metadata` starts as `{}`; a present
metadata string is decoded by `json.loads` inside `try` and **rebinds**
`metadata` before `metadata.get('session_id')` runs.  When the decoded value
is not an object, that `.get` raises `AttributeError`, the `except` at
line 243 only logs it — and `metadata` stays bound to the non-object, so the
`metadata.get('realtime', False)` at line 246, *outside* the `try`, raises
an uncaught `AttributeError` and `entrypoint` aborts: the `error` case.
Otherwise every field is `metadata.get(key, default)`. -/
def resolve_session_config : RawMetadata → Except String SessionConfig
  | .missing => .ok defaultSessionConfig
  | .unparseable => .ok defaultSessionConfig
  | .parsed (.jobj fs) =>
    .ok { session_id := jsonLookup fs "session_id",
          realtime_mode := (jsonLookup fs "realtime").getD (.jbool false),
          voice := (jsonLookup fs "voice").getD (.jstr defaultVoiceDescriptor),
          model := (jsonLookup fs "model").getD (.jstr defaultModelDescriptor),
          tool_calling_enabled :=
            (jsonLookup fs "tool_calling_enabled").getD (.jbool true),
          web_search_enabled :=
            (jsonLookup fs "web_search_enabled").getD (.jbool true) }
  | .parsed _ =>
    .error "AttributeError: metadata.get on non-object JSON, line 246"

/-- The backend wiring `entrypoint` builds from the configuration: either the
single full-duplex OpenAI Realtime model (lines 261-267) carrying its voice
value, temperature (in tenths) and modalities, or the hybrid pair of a
LiveKit-Inference LLM descriptor and a TTS instance (lines 316-331). -/
inductive BackendWiring where
  | realtime : Json → Nat → List String → BackendWiring
  | hybrid : Json → TTSInstance → BackendWiring

/-- Lines 255-331 restricted to backend construction.  Realtime mode
(truthiness of `realtime_mode`, line 255): one `RealtimeModel` configured
with the metadata `voice` value verbatim, `temperature=0.8` and modalities
`["text", "audio"]`, and no TTS.  Hybrid mode: `llm_model = model or
"openai/gpt-4.1-mini"` (line 316, Python `or` on truthiness) plus
`create_tts_from_voice_descriptor(voice)` (line 320). -/
def entrypoint_backends (env : Env) (cfg : SessionConfig) : BackendWiring :=
  if cfg.realtime_mode.truthy then
    .realtime cfg.voice 8 ["text", "audio"]
  else
    .hybrid (if cfg.model.truthy then cfg.model else .jstr defaultModelDescriptor)
      (create_tts_from_voice_descriptor env cfg.voice)

/-- A handle on the unit serving one of the two conversational roles. -/
inductive BackendHandle where
  | combined : Json → Nat → BackendHandle
  | llmOnly : Json → BackendHandle
  | ttsOnly : TTSInstance → BackendHandle

/-- The unit that understands speech: in realtime mode the combined model
(`AgentSession(llm=realtime_model)`, line 267), in hybrid mode the
LLM descriptor (`AgentSession(llm=llm_model, ...)`, line 329). -/
def BackendWiring.understanding : BackendWiring → BackendHandle
  | .realtime v t _ => .combined v t
  | .hybrid l _ => .llmOnly l

/-- The unit that synthesizes speech: in realtime mode the same combined
model (no `tts` argument exists, line 267), in hybrid mode the TTS instance
(`tts=tts_instance`, line 330). -/
def BackendWiring.synthesis : BackendWiring → BackendHandle
  | .realtime v t _ => .combined v t
  | .hybrid _ t => .ttsOnly t

/- ---------------------------------------------------------------------
Helper lemmas about the string primitives.
--------------------------------------------------------------------- -/

theorem takeWhile_append_cons_stop {p : Char → Bool} {a : Char}
    (u w : List Char) (h : p a = false) :
    (u ++ a :: w).takeWhile p = u.takeWhile p := by
  induction u with
  | nil => simp [List.takeWhile_cons, h]
  | cons x xs ih =>
    by_cases hx : p x <;> simp [List.takeWhile_cons, hx, ih]

theorem splitFirstOn_append {c : Char} {a : List Char} (b : List Char)
    (h : c ∉ a) : splitFirstOn c (a ++ c :: b) = some (a, b) := by
  induction a with
  | nil => simp [splitFirstOn]
  | cons x xs ih =>
    have hx : ¬x = c := fun e => h (e ▸ List.mem_cons_self x xs)
    have hxs : c ∉ xs := fun hm => h (List.mem_cons_of_mem _ hm)
    simp [splitFirstOn, hx, ih hxs]

theorem afterLast_of_not_mem {c : Char} {l : List Char} (h : c ∉ l) :
    afterLast c l = l := by
  unfold afterLast
  rw [List.takeWhile_eq_self_iff.mpr, List.reverse_reverse]
  intro x hx
  have hxl : x ∈ l := List.mem_reverse.mp hx
  exact bne_iff_ne.mpr (fun e => h (e ▸ hxl))

theorem afterLast_append_cons (c : Char) (x m : List Char) :
    afterLast c (x ++ c :: m) = afterLast c m := by
  unfold afterLast
  rw [List.reverse_append, List.reverse_cons, List.append_assoc,
    List.singleton_append,
    takeWhile_append_cons_stop _ _ (by simp)]

theorem isPrefixOf_append_self (a b : List Char) :
    a.isPrefixOf (a ++ b) = true := by
  induction a with
  | nil => simp [List.isPrefixOf]
  | cons x xs ih => simp [List.isPrefixOf, ih]

theorem create_tts_cartesia_branch (env : Env) (s : String) (mp vid : List Char)
    (hne : s.data.isEmpty = false)
    (hpre : "cartesia/".data.isPrefixOf s.data = true)
    (hsplit : splitFirstOn ':' s.data = some (mp, vid))
    (hkey : env.cartesia_api_key = true)
    (hcont : containsChar '/' mp = true) :
    create_tts_from_voice_descriptor env (Json.jstr s) =
      TTSInstance.cartesiaTTS ⟨afterLast '/' mp⟩ ⟨vid⟩ := by
  simp [create_tts_from_voice_descriptor, hne, hpre, hsplit, hkey, hcont]

theorem create_tts_elevenlabs_branch (env : Env) (s : String)
    (mp vid : List Char)
    (hne : s.data.isEmpty = false)
    (hpreC : "cartesia/".data.isPrefixOf s.data = false)
    (hpre : "elevenlabs/".data.isPrefixOf s.data = true)
    (hsplit : splitFirstOn ':' s.data = some (mp, vid))
    (hkey : env.elevenlabs_api_key = true)
    (hcont : containsChar '/' mp = true) :
    create_tts_from_voice_descriptor env (Json.jstr s) =
      TTSInstance.elevenlabsTTS ⟨afterLast '/' mp⟩ ⟨vid⟩ := by
  simp [create_tts_from_voice_descriptor, hne, hpreC, hpre, hsplit, hkey,
    hcont]

/- ---------------------------------------------------------------------
Claim theorems.
--------------------------------------------------------------------- -/

/-- Claim C1, counterexample: dispatch metadata `"[]"` is valid JSON but not
an object.  `json.loads` rebinds `metadata` to the list, the `AttributeError`
from `metadata.get('session_id')` is caught — but `metadata.get('realtime',
False)` at line 246 runs outside the `try` on the still-non-object value and
raises uncaught, so session start aborts instead of resolving the default
configuration. -/
theorem c1_counterexample :
    resolve_session_config (RawMetadata.parsed (Json.jarr [])) =
      Except.error "AttributeError: metadata.get on non-object JSON, line 246"
    ∧ resolve_session_config (RawMetadata.parsed (Json.jarr [])) ≠
      Except.ok defaultSessionConfig :=
  ⟨rfl, fun h => nomatch h⟩

/-- Claim C1 (amended): for dispatch metadata that is absent or that fails
JSON parsing, session start does not abort and the resolved SessionConfig
equals the documented defaults (no session id, realtime off, the default
Cartesia voice, the default LLM identifier, tool calling and web search
enabled); metadata that parses to a non-object value instead aborts
session start. -/
theorem c1_defaults_on_bad_metadata :
    resolve_session_config RawMetadata.missing = Except.ok defaultSessionConfig
    ∧ resolve_session_config RawMetadata.unparseable =
      Except.ok defaultSessionConfig :=
  ⟨rfl, rfl⟩

/-- Claim C2: any descriptor string that does not match the
`provider/model:voiceId` shape for a recognized provider (`cartesia`,
`elevenlabs`), or that matches the shape but whose provider credential is
absent, makes `create_tts_from_voice_descriptor` return the fallback
carrying the original string unchanged; the function is total, so it never
raises. -/
theorem c2_resolver_fallback (env : Env) (s : String)
    (h : ¬(recognizedShape s = true ∧ credentialFor env s = true)) :
    create_tts_from_voice_descriptor env (Json.jstr s) =
      TTSInstance.fallback (Json.jstr s) := by
  by_cases h0 : s.data.isEmpty
  · simp [create_tts_from_voice_descriptor, h0]
  · by_cases hc : "cartesia/".data.isPrefixOf s.data
    · rcases hsp : splitFirstOn ':' s.data with _ | ⟨mp, vid⟩
      · simp [create_tts_from_voice_descriptor, h0, hc, hsp]
      · have hcred : env.cartesia_api_key = false := by
          cases hb : env.cartesia_api_key
          · rfl
          · exact absurd ⟨by simp [recognizedShape, hc, hsp],
              by simp [credentialFor, hc, hb]⟩ h
        simp [create_tts_from_voice_descriptor, h0, hc, hsp, hcred]
    · by_cases he : "elevenlabs/".data.isPrefixOf s.data
      · rcases hsp : splitFirstOn ':' s.data with _ | ⟨mp, vid⟩
        · simp [create_tts_from_voice_descriptor, h0, hc, he, hsp]
        · have hcred : env.elevenlabs_api_key = false := by
            cases hb : env.elevenlabs_api_key
            · rfl
            · exact absurd ⟨by simp [recognizedShape, he, hsp],
                by simp [credentialFor, hc, he, hb]⟩ h
          simp [create_tts_from_voice_descriptor, h0, hc, he, hsp, hcred]
      · simp [create_tts_from_voice_descriptor, h0, hc, he]

/-- Claim C2, witness: a well-shaped Cartesia descriptor with the Cartesia
credential absent comes back as the fallback carrying the original string. -/
theorem c2_witness :
    create_tts_from_voice_descriptor ⟨false, true, true⟩
        (Json.jstr "cartesia/sonic-3:abc") =
      TTSInstance.fallback (Json.jstr "cartesia/sonic-3:abc") :=
  c2_resolver_fallback ⟨false, true, true⟩ "cartesia/sonic-3:abc" (by decide)

/-- Claim C3: with `realtime_mode` truthy, `entrypoint` builds the single
combined OpenAI Realtime backend configured with the metadata voice value
verbatim (never routed through `create_tts_from_voice_descriptor`),
temperature 0.8 and modalities `["text", "audio"]`, and the understanding
and synthesis roles are served by that same unit; with `realtime_mode`
falsy, the understanding handle (the LiveKit-Inference LLM descriptor) and
the synthesis handle (the TTS instance) are two distinct backends. -/
theorem c3_mode_selection (env : Env) (cfg : SessionConfig) :
    (cfg.realtime_mode.truthy = true →
      entrypoint_backends env cfg =
        BackendWiring.realtime cfg.voice 8 ["text", "audio"] ∧
      (entrypoint_backends env cfg).understanding =
        (entrypoint_backends env cfg).synthesis) ∧
    (cfg.realtime_mode.truthy = false →
      (entrypoint_backends env cfg).understanding ≠
        (entrypoint_backends env cfg).synthesis) := by
  constructor
  · intro h
    have e : entrypoint_backends env cfg =
        BackendWiring.realtime cfg.voice 8 ["text", "audio"] := by
      simp [entrypoint_backends, h]
    exact ⟨e, by rw [e]; rfl⟩
  · intro h
    have e : entrypoint_backends env cfg =
        BackendWiring.hybrid
          (if cfg.model.truthy then cfg.model
           else Json.jstr defaultModelDescriptor)
          (create_tts_from_voice_descriptor env cfg.voice) := by
      simp [entrypoint_backends, h]
    rw [e]
    exact fun hh => nomatch hh

/-- Claim C3, witness: at a concrete realtime configuration the two roles
coincide, and at a concrete hybrid configuration they differ. -/
theorem c3_witness :
    (entrypoint_backends ⟨true, true, true⟩
        { defaultSessionConfig with realtime_mode := Json.jbool true }).understanding =
      (entrypoint_backends ⟨true, true, true⟩
        { defaultSessionConfig with realtime_mode := Json.jbool true }).synthesis ∧
    (entrypoint_backends ⟨true, true, true⟩ defaultSessionConfig).understanding ≠
      (entrypoint_backends ⟨true, true, true⟩ defaultSessionConfig).synthesis :=
  ⟨((c3_mode_selection ⟨true, true, true⟩
      { defaultSessionConfig with realtime_mode := Json.jbool true }).1 rfl).2,
    (c3_mode_selection ⟨true, true, true⟩ defaultSessionConfig).2 rfl⟩

/-- Claim C4: with web search enabled and the Perplexity credential present,
`web_search` maps every network outcome to a plain sentence and never
raises: any non-200 status yields the fixed "having trouble" sentence, a
timeout or transport exception yields the fixed "temporarily unavailable"
sentence, and a 200 response carrying an answer at
`choices[0].message.content` yields that answer text unmodified. -/
theorem c4_web_search_outcomes (a : Assistant) (env : Env) (query : String)
    (hweb : a.web_search_enabled.truthy = true)
    (hkey : env.perplexity_api_key = true) :
    (∀ status body, status ≠ 200 →
      a.webSearchReply env query (NetResult.response status body) =
        Json.jstr "I'm having trouble searching the web right now.") ∧
    a.webSearchReply env query NetResult.timeout =
      Json.jstr "Search is temporarily unavailable." ∧
    a.webSearchReply env query NetResult.transportFailure =
      Json.jstr "Search is temporarily unavailable." ∧
    (∀ body answer, extractAnswer body = some (Json.jstr answer) →
      a.webSearchReply env query (NetResult.response 200 body) =
        Json.jstr answer) := by
  refine ⟨?_, ?_, ?_, ?_⟩
  · intro status body h
    simp [Assistant.webSearchReply, hweb, hkey, h]
  · simp [Assistant.webSearchReply, hweb, hkey]
  · simp [Assistant.webSearchReply, hweb, hkey]
  · intro body answer h
    simp [Assistant.webSearchReply, hweb, hkey, h]

/-- Claim C4, witness: an HTTP 500 yields the fixed degraded-service
sentence and an HTTP 200 with a well-formed body yields the literal answer,
at concrete inputs. -/
theorem c4_witness :
    (mkAssistant (Json.jbool true) (Json.jbool true)).webSearchReply
        ⟨true, true, true⟩ "weather" (NetResult.response 500 Json.null) =
      Json.jstr "I'm having trouble searching the web right now." ∧
    (mkAssistant (Json.jbool true) (Json.jbool true)).webSearchReply
        ⟨true, true, true⟩ "weather"
        (NetResult.response 200
          (Json.jobj [("choices", Json.jarr [Json.jobj [("message",
            Json.jobj [("content", Json.jstr "It is sunny.")])]])])) =
      Json.jstr "It is sunny." := by
  have h := c4_web_search_outcomes
    (mkAssistant (Json.jbool true) (Json.jbool true)) ⟨true, true, true⟩
    "weather" rfl rfl
  exact ⟨h.1 500 Json.null (by decide),
    h.2.2.2 (Json.jobj [("choices", Json.jarr [Json.jobj [("message",
      Json.jobj [("content", Json.jstr "It is sunny.")])]])]) "It is sunny." rfl⟩

/-- Claim C5: with a session id present and non-whitespace text, `save_turn`
issues exactly one POST to `{BACKEND_URL}/v1/sessions/{session_id}/turns`
whose JSON body is `{"speaker": speaker, "text": stripped-text}` with
`Content-Type: application/json` and a 5-second timeout; HTTP 201 is taken
as success, and every other status, a timeout, or a transport exception is
only logged — `save_turn` never raises. -/
theorem c5_save_turn_post (backend_url sid speaker text : String)
    (hsid : sid ≠ "") (htext : pyStrip text ≠ "") :
    save_turn_request backend_url (some sid) speaker text =
      some { url := backend_url ++ "/v1/sessions/" ++ sid ++ "/turns",
             body := Json.jobj [("speaker", Json.jstr speaker),
                                ("text", Json.jstr (pyStrip text))],
             contentType := "application/json",
             timeoutSeconds := 5 } ∧
    (∀ body, save_turn_handle (NetResult.response 201 body) =
      TurnSaveOutcome.savedDebugLog) ∧
    (∀ status body, status ≠ 201 →
      save_turn_handle (NetResult.response status body) =
        TurnSaveOutcome.statusErrorLog status) ∧
    save_turn_handle NetResult.timeout = TurnSaveOutcome.timeoutErrorLog ∧
    save_turn_handle NetResult.transportFailure =
      TurnSaveOutcome.exceptionErrorLog := by
  refine ⟨?_, fun body => rfl, ?_, rfl, rfl⟩
  · simp [save_turn_request, hsid, htext]
  · intro status body h
    simp [save_turn_handle, h]

/-- Claim C5, witness: at a concrete session id and utterance, the POST and
the 201/500 interpretations evaluate as stated. -/
theorem c5_witness :
    save_turn_request "https://shaw.up.railway.app" (some "s1") "user" " hello " =
      some { url := "https://shaw.up.railway.app/v1/sessions/s1/turns",
             body := Json.jobj [("speaker", Json.jstr "user"),
                                ("text", Json.jstr "hello")],
             contentType := "application/json",
             timeoutSeconds := 5 } ∧
    save_turn_handle (NetResult.response 500 Json.null) =
      TurnSaveOutcome.statusErrorLog 500 := by
  have h := c5_save_turn_post "https://shaw.up.railway.app" "s1" "user"
    " hello " (by decide) (by decide)
  exact ⟨h.1, h.2.2.1 500 Json.null (by decide)⟩

/-- Claim C6: with no session id (or an empty one), or with text that strips
to the empty string, `save_turn` issues no network request at all. -/
theorem c6_save_turn_noop (backend_url : String) (session_id : Option String)
    (speaker text : String)
    (h : session_id = none ∨ session_id = some "" ∨ pyStrip text = "") :
    save_turn_request backend_url session_id speaker text = none := by
  rcases h with h | h | h
  · rw [h]; rfl
  · rw [h]; rfl
  · cases session_id with
    | none => rfl
    | some sid => simp [save_turn_request, h]

/-- Claim C6, witness: a whitespace-only utterance and a missing session id
both produce no request, at concrete inputs. -/
theorem c6_witness :
    save_turn_request "https://shaw.up.railway.app" (some "s1") "user" "  \t " =
      none ∧
    save_turn_request "https://shaw.up.railway.app" none "assistant" "hello" =
      none :=
  ⟨c6_save_turn_noop "https://shaw.up.railway.app" (some "s1") "user" "  \t "
      (Or.inr (Or.inr (by decide))),
    c6_save_turn_noop "https://shaw.up.railway.app" none "assistant" "hello"
      (Or.inl rfl)⟩

/-- Claim C7: with `web_search_enabled = false`, invoking `web_search` with
any query and any credential environment performs no network call and
returns the fixed disabled sentence. -/
theorem c7_disabled_no_call (tool_calling : Json) (env : Env) (query : String)
    (net : NetResult) :
    (mkAssistant tool_calling (Json.jbool false)).webSearchRequest env query =
      none ∧
    (mkAssistant tool_calling (Json.jbool false)).webSearchReply env query net =
      Json.jstr "Web search is currently disabled in your settings." :=
  ⟨rfl, rfl⟩

/-- Claim C8: a descriptor of the shape `cartesia/<model>:<voiceId>` (the
model segment free of `:` and `/`), with the Cartesia credential present,
resolves to a directly instantiated Cartesia TTS whose model is the text
after the last `/` of the prefix and whose voice id is the text after the
first `:` — not the string fallback. -/
theorem c8_cartesia_direct (env : Env) (s : String) (m v : List Char)
    (hs : s.data = "cartesia/".data ++ m ++ ':' :: v)
    (hkey : env.cartesia_api_key = true)
    (hm1 : ':' ∉ m) (hm2 : '/' ∉ m) :
    create_tts_from_voice_descriptor env (Json.jstr s) =
      TTSInstance.cartesiaTTS ⟨m⟩ ⟨v⟩ := by
  have hsplit : splitFirstOn ':' s.data = some ("cartesia/".data ++ m, v) := by
    rw [hs]
    refine splitFirstOn_append v ?_
    simp only [List.mem_append]
    rintro (hin | hin)
    · exact absurd hin (by decide)
    · exact hm1 hin
  have hne : s.data.isEmpty = false := by
    rw [hs]; rfl
  have hpre : "cartesia/".data.isPrefixOf s.data = true := by
    rw [hs, List.append_assoc]
    exact isPrefixOf_append_self _ _
  have hcont : containsChar '/' ("cartesia/".data ++ m) = true := by
    simp [containsChar, List.any_append]
  have hafter : afterLast '/' ("cartesia/".data ++ m) = m := by
    have e : "cartesia/".data ++ m = "cartesia".data ++ '/' :: m := rfl
    rw [e, afterLast_append_cons]
    exact afterLast_of_not_mem hm2
  rw [create_tts_cartesia_branch env s ("cartesia/".data ++ m) v hne hpre
    hsplit hkey hcont, hafter]

/-- Claim C8, witness: `"cartesia/sonic-3:abc"` with the Cartesia credential
present yields a Cartesia TTS with model `"sonic-3"` and voice id `"abc"`. -/
theorem c8_witness :
    create_tts_from_voice_descriptor ⟨true, false, false⟩
        (Json.jstr "cartesia/sonic-3:abc") =
      TTSInstance.cartesiaTTS "sonic-3" "abc" :=
  c8_cartesia_direct ⟨true, false, false⟩ "cartesia/sonic-3:abc"
    "sonic-3".data "abc".data rfl rfl (by decide) (by decide)

/-- Claim C9, counterexample: for `"cartesia/:abc"` — a recognized-provider
descriptor with a `:` separator whose model segment is absent — the resolver
produces a Cartesia TTS whose model is the empty string, not the
provider-baseline `"sonic-3"` the claim requires: the `else "sonic-3"`
default at line 149 is unreachable, because a `cartesia/`-prefixed string
always has `/` in the part before the first `:`. -/
theorem c9_counterexample :
    create_tts_from_voice_descriptor ⟨true, true, true⟩
        (Json.jstr "cartesia/:abc") =
      TTSInstance.cartesiaTTS "" "abc" ∧
    create_tts_from_voice_descriptor ⟨true, true, true⟩
        (Json.jstr "cartesia/:abc") ≠
      TTSInstance.cartesiaTTS "sonic-3" "abc" := by
  refine ⟨rfl, fun h => ?_⟩
  have h' : TTSInstance.cartesiaTTS "" "abc" =
      TTSInstance.cartesiaTTS "sonic-3" "abc" := h
  injection h' with h1 _
  exact absurd h1 (by decide)

/-- Claim C9 (amended): for every recognized-provider descriptor with a `:`
separator and the provider credential present, the model is the text after
the last `/` in the prefix portion; when the model segment is absent the
model is the **empty string** — the provider-specific baseline default in
the source is dead code and is never applied. -/
theorem c9_model_from_prefix (env : Env) :
    (∀ (s : String) (m1 m2 v : List Char),
      s.data = "cartesia/".data ++ m1 ++ '/' :: m2 ++ ':' :: v →
      ':' ∉ m1 → ':' ∉ m2 → '/' ∉ m2 →
      env.cartesia_api_key = true →
      create_tts_from_voice_descriptor env (Json.jstr s) =
        TTSInstance.cartesiaTTS ⟨m2⟩ ⟨v⟩) ∧
    (∀ (s : String) (v : List Char),
      s.data = "cartesia/".data ++ ':' :: v →
      env.cartesia_api_key = true →
      create_tts_from_voice_descriptor env (Json.jstr s) =
        TTSInstance.cartesiaTTS "" ⟨v⟩) ∧
    (∀ (s : String) (v : List Char),
      s.data = "elevenlabs/".data ++ ':' :: v →
      env.elevenlabs_api_key = true →
      create_tts_from_voice_descriptor env (Json.jstr s) =
        TTSInstance.elevenlabsTTS "" ⟨v⟩) := by
  refine ⟨?_, ?_, ?_⟩
  · intro s m1 m2 v hs hm1 hm2 hm3 hkey
    have hsplit : splitFirstOn ':' s.data =
        some (("cartesia/".data ++ m1) ++ '/' :: m2, v) := by
      rw [hs]
      refine splitFirstOn_append v ?_
      simp only [List.mem_append, List.mem_cons]
      rintro ((hin | hin) | (hin | hin))
      · exact absurd hin (by decide)
      · exact hm1 hin
      · exact absurd hin (by decide)
      · exact hm2 hin
    have hne : s.data.isEmpty = false := by
      rw [hs]; rfl
    have hpre : "cartesia/".data.isPrefixOf s.data = true := by
      rw [hs, List.append_assoc, List.append_assoc]
      exact isPrefixOf_append_self _ _
    have hcont : containsChar '/' (("cartesia/".data ++ m1) ++ '/' :: m2) =
        true := by
      simp [containsChar, List.any_append]
    have hafter : afterLast '/' (("cartesia/".data ++ m1) ++ '/' :: m2) =
        m2 := by
      rw [afterLast_append_cons]
      exact afterLast_of_not_mem hm3
    rw [create_tts_cartesia_branch env s (("cartesia/".data ++ m1) ++ '/' :: m2)
      v hne hpre hsplit hkey hcont, hafter]
  · intro s v hs hkey
    have hsplit : splitFirstOn ':' s.data = some ("cartesia/".data, v) := by
      rw [hs]
      exact splitFirstOn_append v (by decide)
    have hne : s.data.isEmpty = false := by
      rw [hs]; rfl
    have hpre : "cartesia/".data.isPrefixOf s.data = true := by
      rw [hs]
      exact isPrefixOf_append_self _ _
    rw [create_tts_cartesia_branch env s "cartesia/".data v hne hpre hsplit
      hkey rfl]
    rfl
  · intro s v hs hkey
    have hsplit : splitFirstOn ':' s.data = some ("elevenlabs/".data, v) := by
      rw [hs]
      exact splitFirstOn_append v (by decide)
    have hne : s.data.isEmpty = false := by
      rw [hs]; rfl
    have hpreC : "cartesia/".data.isPrefixOf s.data = false := by
      rw [hs]; rfl
    have hpre : "elevenlabs/".data.isPrefixOf s.data = true := by
      rw [hs]
      exact isPrefixOf_append_self _ _
    rw [create_tts_elevenlabs_branch env s "elevenlabs/".data v hne hpreC hpre
      hsplit hkey rfl]
    rfl

/-- Claim C9, witness: with every credential present,
`"cartesia/v2/sonic-x:id"` resolves with model `"sonic-x"` (the text after
the last `/`), and `"cartesia/:id"` resolves with the empty model. -/
theorem c9_witness :
    create_tts_from_voice_descriptor ⟨true, true, true⟩
        (Json.jstr "cartesia/v2/sonic-x:id") =
      TTSInstance.cartesiaTTS "sonic-x" "id" ∧
    create_tts_from_voice_descriptor ⟨true, true, true⟩
        (Json.jstr "cartesia/:id") =
      TTSInstance.cartesiaTTS "" "id" := by
  have h := c9_model_from_prefix ⟨true, true, true⟩
  exact ⟨h.1 "cartesia/v2/sonic-x:id" "v2".data "sonic-x".data "id".data rfl
      (by decide) (by decide) (by decide) rfl,
    h.2.1 "cartesia/:id" "id".data rfl rfl⟩

/-- Claim C10: `tool_calling_enabled` does not gate `web_search` execution —
the request issued and the reply produced are identical to those of an
assistant built with the flag on; with web search enabled (truthy) and the
Perplexity credential present the search request is issued even when
`tool_calling_enabled` is false; the two flags together determine only the
instruction text, and the stored web-search gate is exactly the
`web_search_enabled` value. -/
theorem c10_tool_flag_unused_by_search (tc ws : Json) (env : Env)
    (query : String) (net : NetResult) :
    (mkAssistant tc ws).webSearchRequest env query =
      (mkAssistant (Json.jbool true) ws).webSearchRequest env query ∧
    (mkAssistant tc ws).webSearchReply env query net =
      (mkAssistant (Json.jbool true) ws).webSearchReply env query net ∧
    (ws.truthy = true → env.perplexity_api_key = true →
      (mkAssistant tc ws).webSearchRequest env query =
        some (perplexityRequest query)) ∧
    (mkAssistant tc ws).instructions =
      (if tc.truthy && ws.truthy then
        baseInstructions ++ toolInstructionsSuffix
      else baseInstructions ++ knowledgeInstructionsSuffix) ∧
    (mkAssistant tc ws).web_search_enabled = ws := by
  refine ⟨rfl, rfl, ?_, rfl, rfl⟩
  intro hws hkey
  simp [Assistant.webSearchRequest, mkAssistant, hws, hkey]

/-- Claim C10, witness: with `tool_calling_enabled = false` and web search
enabled, the Perplexity request is still issued for a concrete query. -/
theorem c10_witness :
    (mkAssistant (Json.jbool false) (Json.jbool true)).webSearchRequest
        ⟨true, true, true⟩ "traffic" = some (perplexityRequest "traffic") :=
  (c10_tool_flag_unused_by_search (Json.jbool false) (Json.jbool true)
    ⟨true, true, true⟩ "traffic" NetResult.timeout).2.2.1 rfl rfl
